import Mathlib

/-!
Shallow embedding of the Horamètre rules engine (`FrenchRules` in rules.js):
worked-hours, night-hours, overtime classification, pay estimation and the
period processor, together with the holiday calendar.

Modeling conventions:
* JavaScript numbers are modeled as `JNum := Option ℚ`, where `none` stands
  for `NaN`.  All arithmetic propagates `NaN`; comparisons involving `NaN`
  are `false`; `Math.max`/`Math.min` return `NaN` when an argument is `NaN`.
  The engine never produces `Infinity` from non-`NaN` inputs (the single
  `Infinity` bracket bound is modeled by an unbounded bracket), so `Option ℚ`
  is adequate.
* `Math.round(x)` (round half toward +∞) is `⌊x + 1/2⌋`.
* Strings are Lean `String`s; `split(':')` and the numeric coercions are
  modeled on the character list.  `Number(s)` is modeled on the fragment the
  engine feeds it: the empty string is 0, unsigned decimal digit strings are
  their value, and everything else is `NaN`.  `parseInt` is modeled as an
  optional sign followed by leading decimal digits, `NaN` when there are none.
* JavaScript `Date` values are modeled as proleptic-Gregorian calendar dates
  (`CalDate`), with day-granularity arithmetic in UTC (no DST), which is how
  the engine uses them (year/month/day lookups and whole-day offsets).
* JavaScript objects used as string-keyed maps are modeled as association
  lists in insertion order (the keys used, `"YYYY-Sww"`, are not array-index
  keys, so JS preserves insertion order for them).
-/

attribute [local semireducible] Rat.mul Rat.add Rat.sub Rat.inv

set_option maxRecDepth 100000

/-- A JavaScript number: `none` models `NaN`. -/
abbrev JNum := Option ℚ

/-- JS addition (`NaN` propagates). -/
def jadd : JNum → JNum → JNum
  | some a, some b => some (a + b)
  | _, _ => none

/-- JS subtraction (`NaN` propagates). -/
def jsub : JNum → JNum → JNum
  | some a, some b => some (a - b)
  | _, _ => none

/-- JS multiplication (`NaN` propagates). -/
def jmul : JNum → JNum → JNum
  | some a, some b => some (a * b)
  | _, _ => none

/-- `Math.max` on two arguments (`NaN` if either argument is `NaN`). -/
def jmax : JNum → JNum → JNum
  | some a, some b => some (max a b)
  | _, _ => none

/-- `Math.min` on two arguments (`NaN` if either argument is `NaN`). -/
def jmin : JNum → JNum → JNum
  | some a, some b => some (min a b)
  | _, _ => none

/-- JS `<`: comparisons involving `NaN` are false. -/
def jlt : JNum → JNum → Bool
  | some a, some b => decide (a < b)
  | _, _ => false

/-- JS `<=`: comparisons involving `NaN` are false. -/
def jle : JNum → JNum → Bool
  | some a, some b => decide (a ≤ b)
  | _, _ => false

/-- JS truthiness of a number: `0` and `NaN` are falsy. -/
def jtruthy : JNum → Bool
  | some a => decide (a ≠ 0)
  | none => false

/-- `Math.round(q * 100) / 100`, rounding half toward +∞. -/
def round2 (q : ℚ) : ℚ := (⌊q * 100 + 1/2⌋ : ℤ) / 100

/-- `Math.round(q * 10000) / 10000`, rounding half toward +∞. -/
def round4 (q : ℚ) : ℚ := (⌊q * 10000 + 1/2⌋ : ℤ) / 10000

/-- `round2` lifted to JS numbers (`Math.round(NaN)` is `NaN`). -/
def jround2 : JNum → JNum := Option.map round2

/-- `minutesToHours`: `Math.round((minutes / 60) * 100) / 100`. -/
def minutesToHours (minutes : JNum) : JNum :=
  jround2 (Option.map (fun m => m / 60) minutes)

/-- Digit-string value, e.g. `['2','2'] ↦ 22`. -/
def natFromDigits (cs : List Char) : ℕ :=
  cs.foldl (fun acc c => 10 * acc + (c.toNat - 48)) 0

/-- JS `Number(s)` on the fragment relevant to time strings: empty string is
`0`, unsigned decimal digit strings are their value, anything else is `NaN`. -/
def jsNumber (cs : List Char) : JNum :=
  if cs = [] then some 0
  else if cs.all (fun c => c.isDigit) then some (natFromDigits cs)
  else none

/-- JS `s.split(':')` on the character list (accumulator holds the current
chunk reversed). -/
def splitOnColonAux : List Char → List Char → List (List Char)
  | [], acc => [acc.reverse]
  | c :: rest, acc =>
      if c = ':' then acc.reverse :: splitOnColonAux rest []
      else splitOnColonAux rest (c :: acc)

/-- JS `s.split(':')`. -/
def splitOnColon (s : String) : List (List Char) :=
  splitOnColonAux s.data []

/-- Leading decimal digits of a character list, `none` when there are none. -/
def leadingNat : List Char → Option ℕ
  | cs =>
      let ds := cs.takeWhile (fun c => c.isDigit)
      if ds = [] then none else some (natFromDigits ds)

/-- JS `parseInt` on the fragment the engine feeds it: optional minus sign
followed by leading decimal digits; `NaN` (`none`) otherwise. -/
def jsParseInt (s : String) : Option ℤ :=
  match s.data with
  | '-' :: rest => (leadingNat rest).map (fun n => -(n : ℤ))
  | cs => (leadingNat cs).map (fun n => (n : ℤ))

/-- `timeToMinutes(timeStr)`: returns 0 for the empty (falsy) string, else
`h * 60 + m` from `timeStr.split(':').map(Number)`; a string with no `':'`
leaves `m` undefined, so the result is `NaN`. -/
def timeToMinutes (timeStr : String) : JNum :=
  if timeStr = "" then some 0
  else
    match (splitOnColon timeStr).map jsNumber with
    | [] => none
    | [_] => none
    | h :: m :: _ => jadd (jmul h (some 60)) m

/-- Proleptic Gregorian calendar date (models the year/month/day view of a JS
`Date`, month numbered 1–12). -/
structure CalDate where
  year : ℕ
  month : ℕ
  day : ℕ
deriving DecidableEq

/-- Gregorian leap-year rule. -/
def isLeapYear (y : ℕ) : Bool :=
  (y % 4 = 0 && y % 100 ≠ 0) || y % 400 = 0

/-- Number of days in a month. -/
def daysInMonth (y m : ℕ) : ℕ :=
  if m = 2 then (if isLeapYear y then 29 else 28)
  else if m = 4 ∨ m = 6 ∨ m = 9 ∨ m = 11 then 30
  else 31

/-- Days in the months of `y` strictly before month `m`. -/
def daysBeforeMonth (y m : ℕ) : ℕ :=
  (List.range (m - 1)).foldl (fun acc i => acc + daysInMonth y (i + 1)) 0

/-- Day index of a date in the proleptic Gregorian calendar
(`0001-01-01 ↦ 0`). -/
def dayNumber (d : CalDate) : ℕ :=
  let y := d.year - 1
  365 * y + y / 4 - y / 100 + y / 400 + daysBeforeMonth d.year d.month + (d.day - 1)

/-- JS `getDay()`: 0 = Sunday, …, 6 = Saturday (0001-01-01 was a Monday). -/
def dayOfWeek (d : CalDate) : ℕ := (dayNumber d + 1) % 7

/-- The calendar day after `d`. -/
def addOneDay (d : CalDate) : CalDate :=
  if d.day < daysInMonth d.year d.month then ⟨d.year, d.month, d.day + 1⟩
  else if d.month < 12 then ⟨d.year, d.month + 1, 1⟩
  else ⟨d.year + 1, 1, 1⟩

/-- The calendar day before `d`. -/
def subOneDay (d : CalDate) : CalDate :=
  if 1 < d.day then ⟨d.year, d.month, d.day - 1⟩
  else if 1 < d.month then ⟨d.year, d.month - 1, daysInMonth d.year (d.month - 1)⟩
  else ⟨d.year - 1, 12, 31⟩

/-- `d` plus `n` days (models millisecond arithmetic `t + n*86400000` on UTC
dates, DST-free). -/
def addDays : CalDate → ℕ → CalDate
  | d, 0 => d
  | d, n + 1 => addDays (addOneDay d) n

/-- `d` minus `n` days. -/
def subDays : CalDate → ℕ → CalDate
  | d, 0 => d
  | d, n + 1 => subDays (subOneDay d) n

/-- A day entry as consumed by the engine.  `entry.end` is named `endTime`
(`end` is a Lean keyword); `entry.date` is modeled as the already-parsed
calendar date; `breakDuration` is the raw string fed to `parseInt`. -/
structure Entry where
  date : CalDate
  start : String
  endTime : String
  breakDuration : String
deriving DecidableEq

/-- `calculateDailyHours(entry)`. -/
def calculateDailyHours (entry : Entry) : JNum :=
  if entry.start = "" ∨ entry.endTime = "" then some 0
  else
    let startMin := timeToMinutes entry.start
    let endMin0 := timeToMinutes entry.endTime
    let endMin := if jle endMin0 startMin then jadd endMin0 (some 1440) else endMin0
    let workedMinutes := jsub endMin startMin
    let breakMin : ℚ := ((jsParseInt entry.breakDuration).getD 0 : ℤ)
    let workedMinutes2 := jsub workedMinutes (some breakMin)
    jmax (some 0) (minutesToHours workedMinutes2)

/-- `CONFIG.nightStart` (hour). -/
def nightStart : ℚ := 21

/-- `CONFIG.nightEnd` (hour). -/
def nightEnd : ℚ := 6

/-- `calculateNightHours(entry)`.  Faithful to the source, including the
next-day cap `Math.min(endMin - 1440, nightEndMin * 60)` where `nightEndMin`
is already expressed in minutes (360), so the cap is 21600 minutes. -/
def calculateNightHours (entry : Entry) : JNum :=
  if entry.start = "" ∨ entry.endTime = "" then some 0
  else
    let startMin := timeToMinutes entry.start
    let endMin0 := timeToMinutes entry.endTime
    let endMin := if jle endMin0 startMin then jadd endMin0 (some 1440) else endMin0
    let nightStartMin : ℚ := nightStart * 60
    let nightEndMin : ℚ := nightEnd * 60
    let overlap1Start := jmax startMin (some nightStartMin)
    let overlap1End := jmin endMin (some 1440)
    let n1 := if jlt overlap1Start overlap1End then jsub overlap1End overlap1Start else some 0
    let overlap2Start := jmax startMin (some 0)
    let overlap2End := jmin endMin (some nightEndMin)
    let n2 := if jlt overlap2Start overlap2End then jsub overlap2End overlap2Start else some 0
    let nightMinutes := jadd n1 n2
    let nightMinutes2 :=
      if jlt (some 1440) endMin then
        jadd nightMinutes
          (jmax (some 0) (jmin (jsub endMin (some 1440)) (some (nightEndMin * 60))))
      else nightMinutes
    minutesToHours nightMinutes2

/-- `getEasterDate(year)` — anonymous Gregorian Computus.  All JavaScript
`Math.floor` divisions and `%` operated on non-negative values in this
algorithm, so ℕ division/modulo is faithful. -/
def getEasterDate (year : ℕ) : CalDate :=
  let a := year % 19
  let b := year / 100
  let c := year % 100
  let d := b / 4
  let e := b % 4
  let f := (b + 8) / 25
  let g := (b - f + 1) / 3
  let h := (19 * a + b - d - g + 15) % 30
  let i := c / 4
  let k := c % 4
  let l := (32 + 2 * e + 2 * i - h - k) % 7
  let m := (a + 11 * h + 22 * l) / 451
  let month := (h + l - 7 * m + 114) / 31
  let day := ((h + l - 7 * m + 114) % 31) + 1
  ⟨year, month, day⟩

/-- A named public holiday. -/
structure Holiday where
  date : CalDate
  name : String
deriving DecidableEq

/-- `getPublicHolidays(year)`: 8 fixed-date and 3 Easter-relative holidays,
in source order.  `easterMs + n*day` is modeled as `addDays easter n`. -/
def getPublicHolidays (year : ℕ) : List Holiday :=
  let easter := getEasterDate year
  [ ⟨⟨year, 1, 1⟩, "Jour de l\x27An"⟩,
    ⟨addDays easter 1, "Lundi de Pâques"⟩,
    ⟨⟨year, 5, 1⟩, "Fête du Travail"⟩,
    ⟨⟨year, 5, 8⟩, "Victoire 1945"⟩,
    ⟨addDays easter 39, "Ascension"⟩,
    ⟨addDays easter 50, "Lundi de Pentecôte"⟩,
    ⟨⟨year, 7, 14⟩, "Fête Nationale"⟩,
    ⟨⟨year, 8, 15⟩, "Assomption"⟩,
    ⟨⟨year, 11, 1⟩, "Toussaint"⟩,
    ⟨⟨year, 11, 11⟩, "Armistice 1918"⟩,
    ⟨⟨year, 12, 25⟩, "Noël"⟩ ]

/-- `isPublicHoliday(date)`: first holiday of the date's year matching by
year/month/day, if any. -/
def isPublicHoliday (date : CalDate) : Option Holiday :=
  (getPublicHolidays date.year).find? fun h =>
    h.date.year == date.year && h.date.month == date.month && h.date.day == date.day

/-- `isSunday(date)`: JS `getDay() === 0`. -/
def isSunday (date : CalDate) : Bool := dayOfWeek date == 0

/-- An overtime bracket configuration.  The source fields `from`/`to` are
named `lo`/`hi` (`from` is a Lean keyword); `hi = none` models `Infinity`. -/
structure BracketSpec where
  lo : ℚ
  hi : Option ℚ
  rate : ℚ
  label : String
deriving DecidableEq

/-- `CONFIG.overtimeBrackets`. -/
def overtimeBrackets : List BracketSpec :=
  [ ⟨35, some 43, 5/4, "Heures sup. 25%"⟩,
    ⟨43, none, 3/2, "Heures sup. 50%"⟩ ]

/-- The 39h-base brackets `overtimeBrackets39` local to `calculateOvertime`. -/
def overtimeBrackets39 : List BracketSpec :=
  [ ⟨39, some 43, 5/4, "Heures sup. 25% (>39h)"⟩,
    ⟨43, none, 3/2, "Heures sup. 50% (>43h)"⟩ ]

/-- One entry of `result.brackets` in `calculateOvertime`. -/
structure BracketResult where
  label : String
  hours : JNum
  rate : ℚ
  multipliedHours : JNum
deriving DecidableEq

/-- The `OvertimeBreakdown` record returned by `calculateOvertime`. -/
structure OvertimeBreakdown where
  regularHours : JNum
  structuralHours : JNum
  brackets : List BracketResult
  totalOvertime : JNum
  contractBase : ℚ
deriving DecidableEq

/-- The bracket-filling loop shared by both regimes of `calculateOvertime`:
`hoursInBracket = Math.min(remaining, to - from)` (all of `remaining` for the
`Infinity`-bounded bracket), record it when positive, stop once the remaining
overtime is ≤ 0. -/
def fillBrackets : JNum → List BracketSpec → List BracketResult
  | _, [] => []
  | remaining, spec :: rest =>
    let hoursInBracket : JNum :=
      match spec.hi with
      | none => remaining
      | some hi => jmin remaining (some (hi - spec.lo))
    if jlt (some 0) hoursInBracket then
      let entry : BracketResult :=
        ⟨spec.label, jround2 hoursInBracket, spec.rate,
          jround2 (jmul hoursInBracket (some spec.rate))⟩
      let remaining2 := jsub remaining hoursInBracket
      entry :: (if jle remaining2 (some 0) then [] else fillBrackets remaining2 rest)
    else
      if jle remaining (some 0) then [] else fillBrackets remaining rest

/-- `calculateOvertime(weeklyHours, contractBase)`. -/
def calculateOvertime (weeklyHours : JNum) (contractBase : ℚ) : OvertimeBreakdown :=
  if contractBase = 39 then
    let hoursUpTo35 := jmin weeklyHours (some 35)
    let structuralHours := jmin (jmax (jsub weeklyHours (some 35)) (some 0)) (some 4)
    if jle weeklyHours (some 39) then
      ⟨hoursUpTo35, structuralHours, [], some 0, contractBase⟩
    else
      let remainingOvertime := jsub weeklyHours (some 39)
      ⟨hoursUpTo35, structuralHours, fillBrackets remainingOvertime overtimeBrackets39,
        remainingOvertime, contractBase⟩
  else
    if jle weeklyHours (some 35) then
      ⟨weeklyHours, some 0, [], some 0, contractBase⟩
    else
      let remainingOvertime := jsub weeklyHours (some 35)
      ⟨some 35, some 0, fillBrackets remainingOvertime overtimeBrackets,
        remainingOvertime, contractBase⟩

/-- `CONFIG.sundayPremiumRate`. -/
def sundayPremiumRate : ℚ := 1/2

/-- `CONFIG.holidayPremiumRate`. -/
def holidayPremiumRate : ℚ := 1

/-- The `PayBreakdown` record returned by `calculatePay`. -/
structure PayBreakdown where
  regularPay : JNum
  structuralPay : JNum
  overtimePay : JNum
  sundayHours : JNum
  sundayPremium : JNum
  holidayHours : JNum
  holidayPremium : JNum
  totalPay : JNum
  breakdown : OvertimeBreakdown
deriving DecidableEq

/-- `calculatePay(weeklyHours, hourlyRate, contractBase, sundayHours,
holidayHours)`; returns `null` (`none`) when the rate is falsy or ≤ 0. -/
def calculatePay (weeklyHours : JNum) (hourlyRate : ℚ) (contractBase : ℚ)
    (sundayHours holidayHours : JNum) : Option PayBreakdown :=
  if hourlyRate ≤ 0 then none
  else
    let overtime := calculateOvertime weeklyHours contractBase
    let useStructural : Bool :=
      decide (contractBase = 39) && jlt (some 0) overtime.structuralHours
    let structuralPay : JNum :=
      if useStructural
      then jmul (jmul overtime.structuralHours (some hourlyRate)) (some (5/4))
      else some 0
    let basePay : JNum :=
      if useStructural
      then jadd (jmul overtime.regularHours (some hourlyRate)) structuralPay
      else jmul overtime.regularHours (some hourlyRate)
    let overtimePay : JNum :=
      overtime.brackets.foldl
        (fun acc b => jadd acc (jmul (jmul b.hours (some hourlyRate)) (some b.rate)))
        (some 0)
    let sundayPremium := jmul (jmul sundayHours (some hourlyRate)) (some sundayPremiumRate)
    let holidayPremium := jmul (jmul holidayHours (some hourlyRate)) (some holidayPremiumRate)
    let totalPay := jadd (jadd (jadd basePay overtimePay) sundayPremium) holidayPremium
    some ⟨jround2 basePay, jround2 structuralPay, jround2 overtimePay,
      jround2 sundayHours, jround2 sundayPremium, jround2 holidayHours,
      jround2 holidayPremium, jround2 totalPay, overtime⟩

/-- A `Warning{type, message}` value. -/
structure Warning where
  type : String
  message : String
deriving DecidableEq

/-- `CONFIG.dailyMaxHours`. -/
def dailyMaxHours : ℚ := 10

/-- `CONFIG.weeklyMaxHours`. -/
def weeklyMaxHours : ℚ := 48

/-- `CONFIG.weeklyAvgMaxHours`. -/
def weeklyAvgMaxHours : ℚ := 44

/-- `getDailyWarnings(entry, hoursWorked)` (template strings already
instantiated with the CONFIG constants). -/
def getDailyWarnings (entry : Entry) (hoursWorked : JNum) : List Warning :=
  let w1 : List Warning :=
    if jlt (some dailyMaxHours) hoursWorked
    then [⟨"error", "Dépassement durée maximale quotidienne (10h)"⟩] else []
  let w2 : List Warning :=
    if jle (minutesToHours (some 360)) hoursWorked then
      if ((jsParseInt entry.breakDuration).getD 0) < 20
      then [⟨"warning", "Pause obligatoire de 20 min après 6h de travail"⟩] else []
    else []
  w1 ++ w2

/-- `getWeeklyWarnings(weeklyHours)`. -/
def getWeeklyWarnings (weeklyHours : JNum) : List Warning :=
  if jlt (some weeklyMaxHours) weeklyHours then
    [⟨"error", "Dépassement durée maximale hebdomadaire (48h)"⟩]
  else if jlt (some weeklyAvgMaxHours) weeklyHours then
    [⟨"warning", "Attention : 44h max en moyenne sur 12 semaines"⟩]
  else []

/-- `CONFIG.contractBases[b]`: the monthly-hour divisor table. -/
def contractBasesLookup (contractBase : ℚ) : Option ℚ :=
  if contractBase = 24 then some 104
  else if contractBase = 32 then some (13867/100)
  else if contractBase = 35 then some (15167/100)
  else if contractBase = 39 then some 169
  else none

/-- `calculateHourlyRate(grossMonthlySalary, contractBase)`.  The JS fallback
`CONFIG.contractBases[contractBase] || CONFIG.contractBases[35]` is `getD`
(all table values are truthy). -/
def calculateHourlyRate (grossMonthlySalary : ℚ) (contractBase : ℚ) : ℚ :=
  if grossMonthlySalary ≤ 0 then 0
  else round4 (grossMonthlySalary / ((contractBasesLookup contractBase).getD (15167/100)))

/-- `weekNo.toString().padStart(2, '0')`. -/
def padTwo (n : ℕ) : String :=
  if n < 10 then "0" ++ toString n else toString n

/-- `getISOWeek(date)`: shift to the Thursday of the date's week, then count
weeks from January 1 of the shifted date's year (ISO 8601 week key
`"YYYY-Sww"`).  The millisecond difference `(d - yearStart)/86400000` is the
day-number difference. -/
def getISOWeek (date : CalDate) : String :=
  let dow := dayOfWeek date
  let dayNum := if dow = 0 then 7 else dow
  let shifted := if dayNum ≤ 4 then addDays date (4 - dayNum) else subDays date (dayNum - 4)
  let yearStart : CalDate := ⟨shifted.year, 1, 1⟩
  let weekNo := (dayNumber shifted - dayNumber yearStart + 1 + 6) / 7
  toString shifted.year ++ "-S" ++ padTwo weekNo

/-- French long weekday names as produced by
`toLocaleDateString('fr-FR', { weekday: 'long' })`, indexed by `getDay()`. -/
def frDayNames : List String :=
  ["dimanche", "lundi", "mardi", "mercredi", "jeudi", "vendredi", "samedi"]

/-- The locale day name of a date. -/
def dayNameOf (d : CalDate) : String := frDayNames.getD (dayOfWeek d) ""

/-- One element of `dailyResults`. -/
structure DailyResult where
  date : CalDate
  dayName : String
  hoursWorked : JNum
  nightHours : JNum
  isHoliday : Bool
  holidayName : Option String
  isSunday : Bool
  warnings : List Warning
  start : String
  endTime : String
  breakDuration : String
deriving DecidableEq

/-- One element of `weeklyResults`. -/
structure WeeklyResult where
  week : String
  totalHours : JNum
  overtime : OvertimeBreakdown
  warnings : List Warning
  pay : Option PayBreakdown
  sundayHours : JNum
  holidayHours : JNum
  cumulativeOvertime : JNum
deriving DecidableEq

/-- The `totalPay` aggregate of a `PeriodResult`. -/
structure TotalPay where
  regular : JNum
  structural : JNum
  overtime : JNum
  sundayPremium : JNum
  holidayPremium : JNum
  total : JNum
deriving DecidableEq

/-- The `PeriodResult` returned by `processEntries`. -/
structure PeriodResult where
  dailyResults : List DailyResult
  weeklyResults : List WeeklyResult
  totalHours : JNum
  totalNightHours : JNum
  totalSundayHours : JNum
  totalHolidayHours : JNum
  totalOvertime : JNum
  totalPay : Option TotalPay
  contractBase : ℚ
deriving DecidableEq

/-- A JS object used as a string-keyed number map, in insertion order. -/
abbrev JMap := List (String × JNum)

/-- Overwrite the value at an existing key, keeping its position; append
otherwise. -/
def setKey : JMap → String → JNum → JMap
  | [], k, v => [(k, v)]
  | (k0, v0) :: rest, k, v =>
      if k0 = k then (k0, v) :: rest else (k0, v0) :: setKey rest k v

/-- `if (!map[key]) map[key] = 0`: a missing, zero or `NaN` value is replaced
by 0 (JS truthiness on numbers). -/
def ensureKey (m : JMap) (k : String) : JMap :=
  match m.lookup k with
  | none => m ++ [(k, some 0)]
  | some v => if jtruthy v then m else setKey m k (some 0)

/-- `map[key] += h` (the key is present after `ensureKey`). -/
def addToKey (m : JMap) (k : String) (h : JNum) : JMap :=
  setKey m k (jadd ((m.lookup k).getD (some 0)) h)

/-- `map[key] || 0`: a falsy (zero or `NaN`) or missing value becomes 0. -/
def jor0 (v : JNum) : JNum := if jtruthy v then v else some 0

/-- The accumulator of the per-day loop of `processEntries`. -/
structure DailyAcc where
  dailyResults : List DailyResult
  totalHours : JNum
  totalNightHours : JNum
  totalSundayHours : JNum
  totalHolidayHours : JNum
  weeklyHoursMap : JMap
  weeklySundayMap : JMap
  weeklyHolidayMap : JMap

/-- One iteration of the per-day loop of `processEntries`. -/
def processOneEntry (acc : DailyAcc) (entry : Entry) : DailyAcc :=
  let date := entry.date
  let hoursWorked := calculateDailyHours entry
  let nightHours := calculateNightHours entry
  let holiday := isPublicHoliday date
  let sunday := isSunday date
  let warnings := getDailyWarnings entry hoursWorked
  let weekKey := getISOWeek date
  let m1 := ensureKey acc.weeklyHoursMap weekKey
  let m2 := ensureKey acc.weeklySundayMap weekKey
  let m3 := ensureKey acc.weeklyHolidayMap weekKey
  let m1 := addToKey m1 weekKey hoursWorked
  let sundayCounts := sunday && jlt (some 0) hoursWorked
  let m2 := if sundayCounts then addToKey m2 weekKey hoursWorked else m2
  let totalSundayHours :=
    if sundayCounts then jadd acc.totalSundayHours hoursWorked else acc.totalSundayHours
  let holidayCounts := holiday.isSome && jlt (some 0) hoursWorked
  let m3 := if holidayCounts then addToKey m3 weekKey hoursWorked else m3
  let totalHolidayHours :=
    if holidayCounts then jadd acc.totalHolidayHours hoursWorked else acc.totalHolidayHours
  let dr : DailyResult :=
    ⟨entry.date, dayNameOf date, hoursWorked, nightHours, holiday.isSome,
      holiday.map Holiday.name, sunday, warnings, entry.start, entry.endTime,
      entry.breakDuration⟩
  ⟨acc.dailyResults ++ [dr], jadd acc.totalHours hoursWorked,
    jadd acc.totalNightHours nightHours, totalSundayHours, totalHolidayHours,
    m1, m2, m3⟩

/-- The per-week loop of `processEntries`, iterating `weeklyHoursMap` in
insertion order and threading `cumulativeOvertime`. -/
def processWeeks (hourlyRate contractBase : ℚ) (sundayMap holidayMap : JMap) :
    JMap → JNum → List WeeklyResult
  | [], _ => []
  | (weekKey, hours) :: rest, cumulativeOvertime =>
      let sundayH := jor0 ((sundayMap.lookup weekKey).getD (some 0))
      let holidayH := jor0 ((holidayMap.lookup weekKey).getD (some 0))
      let overtime := calculateOvertime hours contractBase
      let warnings := getWeeklyWarnings hours
      let pay := calculatePay hours hourlyRate contractBase sundayH holidayH
      let cumulativeOvertime2 := jadd cumulativeOvertime overtime.totalOvertime
      ⟨weekKey, jround2 hours, overtime, warnings, pay, jround2 sundayH,
        jround2 holidayH, jround2 cumulativeOvertime2⟩ ::
        processWeeks hourlyRate contractBase sundayMap holidayMap rest cumulativeOvertime2

/-- The period-level pay totals accumulated over `weeklyResults` (skipping
weeks whose `pay` is `null`). -/
def sumPays (ws : List WeeklyResult) : TotalPay :=
  ws.foldl
    (fun acc w =>
      match w.pay with
      | some p =>
          ⟨jadd acc.regular p.regularPay, jadd acc.structural p.structuralPay,
            jadd acc.overtime p.overtimePay, jadd acc.sundayPremium p.sundayPremium,
            jadd acc.holidayPremium p.holidayPremium, jadd acc.total p.totalPay⟩
      | none => acc)
    ⟨some 0, some 0, some 0, some 0, some 0, some 0⟩

/-- Round every field of the period pay totals to 2 decimals. -/
def roundTotalPay (t : TotalPay) : TotalPay :=
  ⟨jround2 t.regular, jround2 t.structural, jround2 t.overtime,
    jround2 t.sundayPremium, jround2 t.holidayPremium, jround2 t.total⟩

/-- `processEntries(entries, hourlyRate, contractBase)`.  The final
`totalOvertime` is the last value of the threaded `cumulativeOvertime`,
recomputed here as the fold of the weekly `totalOvertime`s in the same
order. -/
def processEntries (entries : List Entry) (hourlyRate : ℚ) (contractBase : ℚ) :
    PeriodResult :=
  let acc0 : DailyAcc := ⟨[], some 0, some 0, some 0, some 0, [], [], []⟩
  let acc := entries.foldl processOneEntry acc0
  let weeklyResults :=
    processWeeks hourlyRate contractBase acc.weeklySundayMap acc.weeklyHolidayMap
      acc.weeklyHoursMap (some 0)
  let cumulativeOvertime :=
    weeklyResults.foldl (fun a w => jadd a w.overtime.totalOvertime) (some 0)
  let totalPay : Option TotalPay :=
    if 0 < hourlyRate then some (roundTotalPay (sumPays weeklyResults)) else none
  ⟨acc.dailyResults, weeklyResults, jround2 acc.totalHours,
    jround2 acc.totalNightHours, jround2 acc.totalSundayHours,
    jround2 acc.totalHolidayHours, jround2 cumulativeOvertime, totalPay, contractBase⟩

example : timeToMinutes "22:00" = some 1320 := by decide
example : timeToMinutes "" = some 0 := by decide
example : timeToMinutes "9h30" = none := by decide
example : calculateDailyHours ⟨⟨2024, 5, 6⟩, "22:00", "06:00", "0"⟩ = some 8 := by decide
example : calculateNightHours ⟨⟨2024, 5, 6⟩, "22:00", "08:00", "0"⟩ = some 10 := by decide
example : calculateNightHours ⟨⟨2024, 5, 6⟩, "20:00", "22:00", "0"⟩ = some 1 := by decide
example : dayOfWeek ⟨1970, 1, 1⟩ = 4 := by decide
example : getEasterDate 2024 = ⟨2024, 3, 31⟩ := by decide
example : (isPublicHoliday ⟨2024, 5, 8⟩).map Holiday.name = some "Victoire 1945" := by decide
example : (isPublicHoliday ⟨2024, 5, 9⟩).map Holiday.name = some "Ascension" := by decide
example : (calculateOvertime (some 45) 35).brackets.map BracketResult.hours
    = [some 8, some 2] := by decide
example : (calculateOvertime (some 41) 39).structuralHours = some 4 := by decide
example : calculateHourlyRate (15167/10) 20 = 10 := by decide
example : (processEntries [⟨⟨2024, 6, 3⟩, "9h30", "17:00", "0"⟩] 15 35).totalHours
    = none := by decide
example :
    (processEntries
      [ ⟨⟨2024, 6, 3⟩, "09:00", "17:00", "60"⟩,
        ⟨⟨2024, 6, 4⟩, "09:00", "17:00", "60"⟩,
        ⟨⟨2024, 6, 5⟩, "09:00", "17:00", "60"⟩,
        ⟨⟨2024, 6, 6⟩, "09:00", "17:00", "60"⟩,
        ⟨⟨2024, 6, 7⟩, "09:00", "17:00", "60"⟩ ] 15 35).totalPay
    = some ⟨some 525, some 0, some 0, some 0, some 0, some 525⟩ := by decide
example :
    (processEntries [⟨⟨2024, 6, 3⟩, "09:00", "17:00", "60"⟩] 15 35).weeklyResults.map
      WeeklyResult.week = ["2024-S23"] := by decide

/-! ### Rounding helper lemmas -/

theorem round2_zero : round2 0 = 0 := by norm_num [round2]

theorem round2_nonneg {x : ℚ} (hx : 0 ≤ x) : 0 ≤ round2 x := by
  unfold round2
  have h1 : (0:ℤ) ≤ ⌊x * 100 + 1/2⌋ := Int.floor_nonneg.mpr (by nlinarith)
  have h2 : ((0:ℤ):ℚ) ≤ ((⌊x * 100 + 1/2⌋ : ℤ) : ℚ) := by exact_mod_cast h1
  have h3 : ((0:ℤ):ℚ) = (0:ℚ) := by norm_num
  exact div_nonneg (h3 ▸ h2) (by norm_num)

theorem round2_nonpos {x : ℚ} (hx : x ≤ 0) : round2 x ≤ 0 := by
  unfold round2
  have h0 : x * 100 + 1/2 < 1 := by nlinarith
  have h1 : ⌊x * 100 + 1/2⌋ < 1 := by
    exact_mod_cast Int.floor_lt.mpr (by exact_mod_cast h0)
  have h2 : ⌊x * 100 + 1/2⌋ ≤ 0 := by omega
  have h3 : ((⌊x * 100 + 1/2⌋ : ℤ) : ℚ) ≤ 0 := by exact_mod_cast h2
  exact div_nonpos_of_nonpos_of_nonneg h3 (by norm_num)

/-! ### Claim theorems -/

/-- C1: evaluation of `calculateNightHours` on the 22:00→08:00 overnight
shift.  The shift spends 2 h in [21:00, 24:00) and 6 h in [00:00, 06:00) of
the next day, so a night window capped at 06:00 of the next day gives 8 h;
the code returns 10 h because its next-day cap is `nightEndMin * 60 = 21600`
minutes (`nightEndMin` is already in minutes), so the two hours worked after
06:00 also count. -/
theorem calculateNightHours_overnight_past_six :
    calculateNightHours ⟨⟨2024, 6, 3⟩, "22:00", "08:00", "0"⟩ = some 10 := by decide

/-- C2 counterexample: `getEasterDate(2024)` is not April 21, 2024, and the
May 8, 2024 holiday is not named `"Victory 1945"`. -/
theorem easter2024_claim_false :
    ((getEasterDate 2024 == ⟨2024, 4, 21⟩) = false) ∧
    (((isPublicHoliday ⟨2024, 5, 8⟩).map Holiday.name == some "Victory 1945") = false) := by
  decide

/-- C2 amended: `getEasterDate(2024)` returns March 31, 2024 (the actual
Easter Sunday of 2024), and `isPublicHoliday` on May 8, 2024 returns the
holiday named `"Victoire 1945"`. -/
theorem easter2024_march31_victoire1945 :
    getEasterDate 2024 = ⟨2024, 3, 31⟩ ∧
    (isPublicHoliday ⟨2024, 5, 8⟩).map Holiday.name = some "Victoire 1945" := by
  decide

/-- C9: `getWeeklyWarnings` emits at most one warning: the error-typed
48h-maximum warning alone when weeklyHours > 48, the 44h advisory alone when
44 < weeklyHours ≤ 48, and nothing when weeklyHours ≤ 44. -/
theorem getWeeklyWarnings_cases (wh : ℚ) :
    getWeeklyWarnings (some wh)
      = (if 48 < wh then
           [⟨"error", "Dépassement durée maximale hebdomadaire (48h)"⟩]
         else if 44 < wh then
           [⟨"warning", "Attention : 44h max en moyenne sur 12 semaines"⟩]
         else []) ∧
    (getWeeklyWarnings (some wh)).length ≤ 1 := by
  have h : getWeeklyWarnings (some wh)
      = (if 48 < wh then
           [(⟨"error", "Dépassement durée maximale hebdomadaire (48h)"⟩ : Warning)]
         else if 44 < wh then
           [⟨"warning", "Attention : 44h max en moyenne sur 12 semaines"⟩]
         else []) := by
    unfold getWeeklyWarnings weeklyMaxHours weeklyAvgMaxHours
    simp only [jlt, decide_eq_true_eq]
  refine ⟨h, ?_⟩
  rw [h]
  split_ifs <;> simp

/-- C10: for a positive salary and a contract base outside the divisor table
{24, 32, 35, 39}, `calculateHourlyRate` falls back to the 35h divisor 151.67
and returns the salary divided by it, rounded to 4 decimals. -/
theorem calculateHourlyRate_fallback (salary cb : ℚ) (hs : 0 < salary)
    (h24 : cb ≠ 24) (h32 : cb ≠ 32) (h35 : cb ≠ 35) (h39 : cb ≠ 39) :
    calculateHourlyRate salary cb = round4 (salary / (15167/100)) := by
  unfold calculateHourlyRate contractBasesLookup
  rw [if_neg (not_le.mpr hs), if_neg h24, if_neg h32, if_neg h35, if_neg h39]
  rfl

/-- C10 witness: salary 1516.70 with the unlisted base 20 uses the 151.67
divisor, giving exactly 10. -/
theorem calculateHourlyRate_fallback_witness :
    0 < (15167/10 : ℚ) ∧ calculateHourlyRate (15167/10) 20 = round4 ((15167/10) / (15167/100)) :=
  ⟨by norm_num,
    calculateHourlyRate_fallback (15167/10) 20 (by norm_num) (by norm_num) (by norm_num)
      (by norm_num) (by norm_num)⟩

/-- Clamping before converting minutes to rounded hours agrees with the
code's clamping after conversion. -/
theorem max0_round2_div60 (w : ℚ) : max 0 (round2 (w / 60)) = round2 (max 0 w / 60) := by
  rcases le_total w 0 with h | h
  · rw [max_eq_left h, zero_div, round2_zero]
    exact max_eq_left (round2_nonpos (div_nonpos_of_nonpos_of_nonneg h (by norm_num)))
  · rw [max_eq_right h]
    exact max_eq_right (round2_nonneg (div_nonneg h (by norm_num)))

/-- C7: for an entry whose start and end times are present and parse to
minute offsets `sm` and `em`, `calculateDailyHours` computes `em − sm`
(adding 1440 when `em ≤ sm`), subtracts the parsed break minutes, clamps at
0, and converts to hours rounded to 2 decimals.  (If start or end is
missing the branch in the definition returns 0 directly.) -/
theorem calculateDailyHours_formula (e : Entry) (sm em : ℚ)
    (hs : e.start ≠ "") (he : e.endTime ≠ "")
    (hsm : timeToMinutes e.start = some sm) (hem : timeToMinutes e.endTime = some em) :
    calculateDailyHours e =
      some (round2 (max 0 ((if em ≤ sm then em + 1440 else em) - sm
        - (((jsParseInt e.breakDuration).getD 0 : ℤ) : ℚ)) / 60)) := by
  unfold calculateDailyHours
  rw [if_neg (by simp [hs, he])]
  simp only [hsm, hem, jle, jadd, jsub, jmax, minutesToHours, jround2, Option.map,
    decide_eq_true_eq]
  by_cases hwrap : em ≤ sm
  · rw [if_pos hwrap, if_pos hwrap]
    simp only [jsub, jmax, Option.map]
    rw [max0_round2_div60]
  · rw [if_neg hwrap, if_neg hwrap]
    simp only [jsub, jmax, Option.map]
    rw [max0_round2_div60]

/-- C7 witness: the 22:00→06:00 overnight entry with a zero break parses to
1320 and 360 minutes and yields exactly 8 hours (480 minutes via the
midnight wrap). -/
theorem calculateDailyHours_formula_witness :
    (("22:00" : String) ≠ "") ∧ (("06:00" : String) ≠ "") ∧
    timeToMinutes "22:00" = some 1320 ∧ timeToMinutes "06:00" = some 360 ∧
    calculateDailyHours ⟨⟨2024, 6, 3⟩, "22:00", "06:00", "0"⟩
      = some (round2 (max 0 ((if (360:ℚ) ≤ 1320 then 360 + 1440 else 360) - 1320
          - (((jsParseInt "0").getD 0 : ℤ) : ℚ)) / 60)) ∧
    calculateDailyHours ⟨⟨2024, 6, 3⟩, "22:00", "06:00", "0"⟩ = some 8 :=
  ⟨by decide, by decide, by decide, by decide,
    calculateDailyHours_formula ⟨⟨2024, 6, 3⟩, "22:00", "06:00", "0"⟩ 1320 360
      (by decide) (by decide) (by decide) (by decide),
    by decide⟩

/-- C8: conservation of hours — for every non-negative weekly total and any
contract base, `regularHours + structuralHours + totalOvertime` returned by
`calculateOvertime` equals the weekly total exactly. -/
theorem calculateOvertime_conservation (wh : ℚ) (cb : ℚ) (_hw : 0 ≤ wh) :
    jadd (jadd (calculateOvertime (some wh) cb).regularHours
        (calculateOvertime (some wh) cb).structuralHours)
      (calculateOvertime (some wh) cb).totalOvertime = some wh := by
  unfold calculateOvertime
  by_cases h39 : cb = 39
  · rw [if_pos h39]
    simp only [jmin, jmax, jsub, jle, decide_eq_true_eq]
    by_cases hle : wh ≤ 39
    · rw [if_pos hle]
      simp only [jadd, Option.some.injEq]
      rcases le_total wh 35 with h35 | h35
      · rw [min_eq_left h35, max_eq_right (by linarith : wh - 35 ≤ 0),
          min_eq_left (by norm_num : (0:ℚ) ≤ 4)]
        ring
      · rw [min_eq_right h35, max_eq_left (by linarith : (0:ℚ) ≤ wh - 35),
          min_eq_left (by linarith : wh - 35 ≤ 4)]
        ring
    · rw [if_neg hle]
      push_neg at hle
      simp only [jadd, Option.some.injEq]
      rw [min_eq_right (by linarith : (35:ℚ) ≤ wh),
        max_eq_left (by linarith : (0:ℚ) ≤ wh - 35),
        min_eq_right (by linarith : (4:ℚ) ≤ wh - 35)]
      ring
  · rw [if_neg h39]
    simp only [jle, jsub, decide_eq_true_eq]
    by_cases hle : wh ≤ 35
    · rw [if_pos hle]
      simp only [jadd, Option.some.injEq]
      ring
    · rw [if_neg hle]
      simp only [jadd, Option.some.injEq]
      ring

/-- C8 witness: 37 weekly hours on the 39h base split as 35 regular + 2
structural + 0 overtime = 37. -/
theorem calculateOvertime_conservation_witness :
    0 ≤ (37:ℚ) ∧
    jadd (jadd (calculateOvertime (some 37) 39).regularHours
        (calculateOvertime (some 37) 39).structuralHours)
      (calculateOvertime (some 37) 39).totalOvertime = some 37 :=
  ⟨by norm_num, calculateOvertime_conservation 37 39 (by norm_num)⟩

/-- Closed form of the bracket-filling loop on a bounded bracket followed by
an `Infinity` bracket, for a positive remaining overtime: the first bracket
takes `min(remaining, width)`, the second takes whatever is left. -/
theorem fillBrackets_pair (r lo1 hi1 rate1 lo2 rate2 : ℚ) (L1 L2 : String)
    (hr : 0 < r) (hw : 0 < hi1 - lo1) :
    fillBrackets (some r) [⟨lo1, some hi1, rate1, L1⟩, ⟨lo2, none, rate2, L2⟩]
      = if r ≤ hi1 - lo1 then
          [⟨L1, some (round2 r), rate1, some (round2 (r * rate1))⟩]
        else
          [⟨L1, some (round2 (hi1 - lo1)), rate1, some (round2 ((hi1 - lo1) * rate1))⟩,
           ⟨L2, some (round2 (r - (hi1 - lo1))), rate2,
             some (round2 ((r - (hi1 - lo1)) * rate2))⟩] := by
  simp only [fillBrackets, jmin, jlt, jle, jsub, jmul, jround2, Option.map,
    decide_eq_true_eq]
  rw [if_pos (lt_min hr hw)]
  by_cases hle : r ≤ hi1 - lo1
  · rw [min_eq_left hle, if_pos hle, if_pos (by linarith : r - r ≤ 0)]
  · push_neg at hle
    rw [min_eq_right hle.le, if_neg (not_le.mpr hle),
      if_neg (by linarith : ¬ r - (hi1 - lo1) ≤ 0)]
    rw [if_pos (by linarith : 0 < r - (hi1 - lo1)),
      if_pos (by linarith : r - (hi1 - lo1) - (r - (hi1 - lo1)) ≤ 0)]

/-- C5: for every contract base other than 39, hours ≤ 35 are entirely
regular (`regularHours = min(weeklyHours, 35)`, no structural hours), and
hours above 35 are overtime filled in ascending bracket order — first
[35,43) at rate 1.25, then [43,∞) at rate 1.50, each bracket receiving
`min(remaining, width)`. -/
theorem calculateOvertime_base35 (wh cb : ℚ) (hcb : cb ≠ 39) :
    (calculateOvertime (some wh) cb).regularHours = some (min wh 35) ∧
    (calculateOvertime (some wh) cb).structuralHours = some 0 ∧
    (calculateOvertime (some wh) cb).totalOvertime
      = some (if wh ≤ 35 then 0 else wh - 35) ∧
    (calculateOvertime (some wh) cb).brackets
      = (if wh ≤ 35 then []
         else if wh - 35 ≤ 8 then
           [⟨"Heures sup. 25%", some (round2 (wh - 35)), 5/4,
              some (round2 ((wh - 35) * (5/4)))⟩]
         else
           [⟨"Heures sup. 25%", some (round2 8), 5/4, some (round2 (8 * (5/4)))⟩,
            ⟨"Heures sup. 50%", some (round2 (wh - 35 - 8)), 3/2,
              some (round2 ((wh - 35 - 8) * (3/2)))⟩]) := by
  unfold calculateOvertime
  rw [if_neg hcb]
  simp only [jle, jsub, decide_eq_true_eq]
  by_cases hle : wh ≤ 35
  · rw [if_pos hle]
    exact ⟨by rw [min_eq_left hle], rfl, by rw [if_pos hle], by rw [if_pos hle]⟩
  · rw [if_neg hle]
    push_neg at hle
    refine ⟨by rw [min_eq_right hle.le], rfl, by rw [if_neg (not_le.mpr hle)], ?_⟩
    rw [if_neg (not_le.mpr hle)]
    unfold overtimeBrackets
    rw [fillBrackets_pair (wh - 35) 35 43 (5/4) 43 (3/2) "Heures sup. 25%"
      "Heures sup. 50%" (by linarith) (by norm_num)]
    norm_num

/-- C5 witness: `calculateOvertime(45, 35)` gives 35 regular hours and
exactly two brackets — 8 hours at rate 1.25 then 2 hours at rate 1.50. -/
theorem calculateOvertime_base35_witness :
    ((35:ℚ) ≠ 39) ∧
    (calculateOvertime (some 45) 35).regularHours = some (min 45 35) ∧
    (calculateOvertime (some 45) 35).structuralHours = some 0 ∧
    (calculateOvertime (some 45) 35).brackets
      = [⟨"Heures sup. 25%", some 8, 5/4, some 10⟩,
         ⟨"Heures sup. 50%", some 2, 3/2, some 3⟩] := by
  have h := calculateOvertime_base35 45 35 (by norm_num)
  refine ⟨by norm_num, h.1, h.2.1, ?_⟩
  rw [h.2.2.2]
  norm_num [round2]

/-- C6: on the 39h base, `regularHours = min(weeklyHours, 35)`,
`structuralHours = min(max(weeklyHours − 35, 0), 4)`, only hours above 39
are overtime, filled into [39,43) at 1.25 then [43,∞) at 1.50; in
particular `calculateOvertime(41, 39)` gives 4 structural hours, 35 regular
hours and a single bracket of 2 hours at rate 1.25. -/
theorem calculateOvertime_base39 (wh : ℚ) :
    ((calculateOvertime (some wh) 39).regularHours = some (min wh 35) ∧
     (calculateOvertime (some wh) 39).structuralHours
       = some (min (max (wh - 35) 0) 4) ∧
     (calculateOvertime (some wh) 39).totalOvertime
       = some (if wh ≤ 39 then 0 else wh - 39) ∧
     (calculateOvertime (some wh) 39).brackets
       = (if wh ≤ 39 then []
          else if wh - 39 ≤ 4 then
            [⟨"Heures sup. 25% (>39h)", some (round2 (wh - 39)), 5/4,
               some (round2 ((wh - 39) * (5/4)))⟩]
          else
            [⟨"Heures sup. 25% (>39h)", some (round2 4), 5/4, some (round2 (4 * (5/4)))⟩,
             ⟨"Heures sup. 50% (>43h)", some (round2 (wh - 39 - 4)), 3/2,
               some (round2 ((wh - 39 - 4) * (3/2)))⟩])) ∧
    (calculateOvertime (some 41) 39).structuralHours = some 4 ∧
    (calculateOvertime (some 41) 39).regularHours = some 35 ∧
    (calculateOvertime (some 41) 39).brackets
      = [⟨"Heures sup. 25% (>39h)", some 2, 5/4, some (5/2)⟩] := by
  refine ⟨?_, by decide, by decide, by decide⟩
  unfold calculateOvertime
  rw [if_pos rfl]
  simp only [jle, jsub, jmin, jmax, decide_eq_true_eq]
  by_cases hle : wh ≤ 39
  · rw [if_pos hle]
    exact ⟨rfl, rfl, by rw [if_pos hle], by rw [if_pos hle]⟩
  · rw [if_neg hle]
    push_neg at hle
    refine ⟨rfl, rfl, by rw [if_neg (not_le.mpr hle)], ?_⟩
    rw [if_neg (not_le.mpr hle)]
    unfold overtimeBrackets39
    rw [fillBrackets_pair (wh - 39) 39 43 (5/4) 43 (3/2) "Heures sup. 25% (>39h)"
      "Heures sup. 50% (>43h)" (by linarith) (by norm_num)]
    norm_num

/-- C4 counterexample: at `weeklyHours = 10.5`, `hourlyRate = 0.01`,
`contractBase = 35`, `sundayHours = 21`, `holidayHours = 0`, the returned
`totalPay` is 0.21 while the sum of the individually rounded component
fields (`regularPay + overtimePay + sundayPremium + holidayPremium`
= 0.11 + 0 + 0.11 + 0) is 0.22, so `totalPay` is not the sum of the rounded
components. -/
theorem calculatePay_round_order_cex :
    ((calculatePay (some (21/2)) (1/100) 35 (some 21) (some 0)).map
        (fun r => r.totalPay == jadd (jadd (jadd r.regularPay r.overtimePay)
          r.sundayPremium) r.holidayPremium)) = some false ∧
    (calculatePay (some (21/2)) (1/100) 35 (some 21) (some 0)).map
      PayBreakdown.totalPay = some (some (21/100)) ∧
    (calculatePay (some (21/2)) (1/100) 35 (some 21) (some 0)).map
        (fun r => jadd (jadd (jadd r.regularPay r.overtimePay) r.sundayPremium)
          r.holidayPremium) = some (some (11/50)) := by
  refine ⟨by decide, by decide, by decide⟩

/-- C4 amended: for a positive hourly rate, the `totalPay` field returned by
`calculatePay` is the 2-decimal rounding of the *unrounded* sum
`basePay + overtimePay + sundayPremium + holidayPremium` (where `basePay`
includes the structural uplift on the 39h base); it is not the sum of the
individually rounded component fields, from which it can differ by a cent. -/
theorem calculatePay_totalPay_rounds_raw_sum (wh rate cb sh hh : ℚ) (hr : 0 < rate) :
    (calculatePay (some wh) rate cb (some sh) (some hh)).map PayBreakdown.totalPay
      = some (jround2 (jadd (jadd (jadd
          (if decide (cb = 39) && jlt (some 0) (calculateOvertime (some wh) cb).structuralHours
           then jadd (jmul (calculateOvertime (some wh) cb).regularHours (some rate))
                  (jmul (jmul (calculateOvertime (some wh) cb).structuralHours (some rate))
                    (some (5/4)))
           else jmul (calculateOvertime (some wh) cb).regularHours (some rate))
          ((calculateOvertime (some wh) cb).brackets.foldl
            (fun acc b => jadd acc (jmul (jmul b.hours (some rate)) (some b.rate)))
            (some 0)))
          (jmul (jmul (some sh) (some rate)) (some sundayPremiumRate)))
          (jmul (jmul (some hh) (some rate)) (some holidayPremiumRate)))) := by
  unfold calculatePay
  rw [if_neg (not_le.mpr hr)]
  dsimp only
  by_cases hS : (decide (cb = 39)
      && jlt (some 0) (calculateOvertime (some wh) cb).structuralHours) = true
  · rw [if_pos hS, if_pos hS, if_pos hS]
    rfl
  · rw [if_neg hS, if_neg hS, if_neg hS]
    rfl

/-- C4 witness: at 40 weekly hours, rate 10, base 35, the rounded raw sum is
412.50 (350 base + 62.50 overtime). -/
theorem calculatePay_totalPay_rounds_raw_sum_witness :
    0 < (10:ℚ) ∧
    ((calculatePay (some 40) 10 35 (some 0) (some 0)).map PayBreakdown.totalPay
      = some (jround2 (jadd (jadd (jadd
          (if decide ((35:ℚ) = 39) && jlt (some 0) (calculateOvertime (some 40) 35).structuralHours
           then jadd (jmul (calculateOvertime (some 40) 35).regularHours (some 10))
                  (jmul (jmul (calculateOvertime (some 40) 35).structuralHours (some 10))
                    (some (5/4)))
           else jmul (calculateOvertime (some 40) 35).regularHours (some 10))
          ((calculateOvertime (some 40) 35).brackets.foldl
            (fun acc b => jadd acc (jmul (jmul b.hours (some 10)) (some b.rate)))
            (some 0)))
          (jmul (jmul (some 0) (some 10)) (some sundayPremiumRate)))
          (jmul (jmul (some 0) (some 10)) (some holidayPremiumRate))))) ∧
    (calculatePay (some 40) 10 35 (some 0) (some 0)).map PayBreakdown.totalPay
      = some (some (825/2)) :=
  ⟨by norm_num, calculatePay_totalPay_rounds_raw_sum 40 10 35 0 0 (by norm_num),
    by decide⟩

/-- Each iteration of the per-day loop appends exactly one daily result. -/
theorem processOneEntry_daily (acc : DailyAcc) (e : Entry) :
    (processOneEntry acc e).dailyResults
      = acc.dailyResults
        ++ [⟨e.date, dayNameOf e.date, calculateDailyHours e, calculateNightHours e,
              (isPublicHoliday e.date).isSome, (isPublicHoliday e.date).map Holiday.name,
              isSunday e.date, getDailyWarnings e (calculateDailyHours e), e.start,
              e.endTime, e.breakDuration⟩] := rfl

/-- The per-day loop produces one daily result per entry. -/
theorem foldl_daily_length (es : List Entry) :
    ∀ acc : DailyAcc,
      ((es.foldl processOneEntry acc).dailyResults).length
        = acc.dailyResults.length + es.length := by
  induction es with
  | nil => intro acc; simp
  | cons e es ih =>
      intro acc
      rw [List.foldl_cons, ih, processOneEntry_daily]
      simp only [List.length_append, List.length_cons, List.length_nil]
      omega

/-- C3 counterexample: an entry with the malformed (non-empty, non-HH:MM)
time string "9h30" makes `hoursWorked` and the period `totalHours` `NaN`
(`none`), rather than being parsed as 0 or skipped — the claimed
0-or-skipped handling would give a defined number in both cases. -/
theorem processEntries_malformed_nan :
    (processEntries [⟨⟨2024, 6, 3⟩, "9h30", "17:00", "0"⟩] 15 35).totalHours = none ∧
    (processEntries [⟨⟨2024, 6, 3⟩, "9h30", "17:00", "0"⟩] 15 35).dailyResults.map
      DailyResult.hoursWorked = [none] := by
  refine ⟨by decide, by decide⟩

/-- C3 amended: `processEntries` is total and structurally complete — it
returns one daily result per entry for every input list, and the empty list
yields a result with empty daily and weekly lists and all totals equal to 0
(with an all-zero pay total when the rate is positive, `null` otherwise);
the empty time string is parsed as 0 minutes; but an entry with a non-empty
malformed time string contributes `NaN` (not 0, and not skipped) to
`hoursWorked`. -/
theorem processEntries_total :
    (∀ (entries : List Entry) (rate cb : ℚ),
        ((processEntries entries rate cb).dailyResults).length = entries.length) ∧
    (∀ rate cb : ℚ,
        processEntries [] rate cb
          = ⟨[], [], some 0, some 0, some 0, some 0, some 0,
              if 0 < rate then some ⟨some 0, some 0, some 0, some 0, some 0, some 0⟩
              else none, cb⟩) ∧
    timeToMinutes "" = some 0 ∧
    calculateDailyHours ⟨⟨2024, 6, 3⟩, "9h30", "17:00", "0"⟩ = none := by
  refine ⟨?_, ?_, by decide, by decide⟩
  · intro entries rate cb
    unfold processEntries
    simpa using foldl_daily_length entries ⟨[], some 0, some 0, some 0, some 0, [], [], []⟩
  · intro rate cb
    unfold processEntries
    simp only [List.foldl_nil, processWeeks, jround2, Option.map, round2_zero]
    simp only [sumPays, roundTotalPay, List.foldl_nil, jround2, Option.map, round2_zero]
